import Mathlib

/-!
Shallow embedding of the two-station dispersion-measurement code in
`pysismo/pstwostation.py` (class `Tscombine` and its helper functions),
together with theorems settling the specification claims about it.

Times, periods, velocities and correlation amplitudes are modelled as
rationals; numpy arrays as Lean lists; a Python tuple that may be the
empty tuple `()` (falsy) or a pair as `Option (ℚ × ℚ)`; a Python
function that may raise as `Except String _`.
-/

namespace Pstwostation

/-- numpy `(xs == v).argmax()`: index of the first element equal to `v`,
or `0` when no element matches (argmax of an all-False boolean array). -/
def np_argmax_eq (xs : List ℚ) (v : ℚ) : ℕ :=
  (xs.findIdx? (· = v)).getD 0

/-- scipy `argrelextrema(xs, np.greater)[0]` (default `order=1`,
`mode=clip`): indices of strict interior local maxima; with clipping the
two boundary samples are compared against themselves under `np.greater`,
so they are never extrema. -/
def argrelextrema_greater (xs : List ℚ) : List ℕ :=
  (List.range xs.length).filter fun i =>
    decide (0 < i) && decide (i + 1 < xs.length) &&
    decide (xs.getD (i - 1) 0 < xs.getD i 0) &&
    decide (xs.getD (i + 1) 0 < xs.getD i 0)

/-- scipy `argrelextrema(xs, np.less)[0]`: indices of strict interior
local minima.  The source never calls this (it calls `np.greater`
twice); it is defined here to compare the source behaviour against
genuine minima. -/
def argrelextrema_less (xs : List ℚ) : List ℕ :=
  (List.range xs.length).filter fun i =>
    decide (0 < i) && decide (i + 1 < xs.length) &&
    decide (xs.getD i 0 < xs.getD (i - 1) 0) &&
    decide (xs.getD i 0 < xs.getD (i + 1) 0)

/-- Embedding of `get_point_index` (pstwostation.py lines 247-254): look a
(period, velocity) point up in the period and velocity scales with
numpy boolean `argmax`. -/
def get_point_index (point : ℚ × ℚ) (veloscale periods : List ℚ) : ℕ × ℕ :=
  (np_argmax_eq periods point.1, np_argmax_eq veloscale point.2)

/-- The `for shift in np.arange(shift_length)` loop of
`local_maximum_tracking` (lines 202-214): walk `shift = 0, 1, ...` and
on the first `shift` with `shift / sampling_rate / periods[iperiod] > 0.4`
break with `max(xcorr[left_extremum], xcorr[right_extremum])`.
Returns `none` when the loop falls through without ever assigning
`phasevelo` (the Python local stays unbound). -/
def phasevelo_loop (xcorr : List ℚ) (eleft eright : List ℕ)
    (sampling_rate T0 : ℚ) (shift_length : ℕ) : Option ℚ :=
  (List.range shift_length).findSome? fun shift =>
    let left_extremum := eleft.getD (eleft.length - (shift + 1)) 0
    let right_extremum := eright.getD shift 0
    let shift_time := (shift : ℚ) / sampling_rate
    if shift_time / T0 > 2/5 then
      some (max (xcorr.getD left_extremum 0) (xcorr.getD right_extremum 0))
    else
      none

/-- Result of one call of `local_maximum_tracking`: the updated
dispersion array and the `leftpoint` / `rightpoint` next seeds
(`none` models the falsy empty tuple `()`). -/
structure TrackResult where
  dispersion : List ℚ
  leftpoint : Option (ℚ × ℚ)
  rightpoint : Option (ℚ × ℚ)
deriving DecidableEq, Repr

/-- Candidate extremum set examined by `local_maximum_tracking`
(lines 190-196): `local_maximums = argrelextrema(xcorr, np.greater)[0]`,
`local_minimums = argrelextrema(xcorr, np.greater)[0]` (the source passes
`np.greater` for both), then
`extremums = np.concatenate([local_minimums, local_maximums])`. -/
def tracking_extremums (xcorr : List ℚ) : List ℕ :=
  let local_maximums := argrelextrema_greater xcorr
  let local_minimums := argrelextrema_greater xcorr
  local_minimums ++ local_maximums

/-- Embedding of `Tscombine.local_maximum_tracking` (lines 185-224).  The relevant
object state is passed explicitly: `sampling_rate` (`self.tr1`),
`veloscale`, `vmatrix` and the current `dispersion` array.  The source
computes both `local_maximums` and `local_minimums` with `np.greater`
(lines 192-193), concatenates minima before maxima (line 196), splits at
`ivelo`, and scans offsets; when the scan never assigns `phasevelo`,
line 216 raises `UnboundLocalError`, modelled as `Except.error`.  The
next seeds are the raw index pairs `(iperiod - 1, ivelo)` and
`(iperiod + 1, ivelo)` coerced to point values, guarded by
`iperiod != 0` and `iperiod != len(periods)` (lines 219-223). -/
def local_maximum_tracking (sampling_rate : ℚ) (veloscale periods : List ℚ)
    (vmatrix : List (List ℚ)) (dispersion : List ℚ) (refpoint : ℚ × ℚ) :
    Except String TrackResult :=
  let idx := get_point_index refpoint veloscale periods
  let iperiod := idx.1
  let ivelo := idx.2
  let xcorr := vmatrix.getD iperiod []
  let extremums := tracking_extremums xcorr
  let extremums_left := extremums.filter fun e => decide (e ≤ ivelo)
  let extremums_right := extremums.filter fun e => decide (ivelo ≤ e)
  let shift_length := min extremums_left.length extremums_right.length
  match phasevelo_loop xcorr extremums_left extremums_right sampling_rate
      (periods.getD iperiod 0) shift_length with
  | none => Except.error "UnboundLocalError: phasevelo referenced before assignment"
  | some phasevelo =>
    let dispersion := dispersion.set iperiod phasevelo
    let leftpoint : Option (ℚ × ℚ) :=
      if iperiod ≠ 0 then some (((iperiod : ℚ) - 1, (ivelo : ℚ))) else none
    let rightpoint : Option (ℚ × ℚ) :=
      if iperiod ≠ periods.length then some (((iperiod : ℚ) + 1, (ivelo : ℚ))) else none
    Except.ok ⟨dispersion, leftpoint, rightpoint⟩

/-- The interactive pick of `Tscombine.plot_vmatrix` in its seed-selection
branch (lines 232-238, `self.dispersion` falsy): the mouse-clicked point
`refpoint` is returned unless its first coordinate (period) is below 20,
in which case the function returns `None`. -/
def plot_vmatrix_pick (refpoint : ℚ × ℚ) : Option (ℚ × ℚ) :=
  if refpoint.1 < 20 then none else some refpoint

/-- The seed-acquisition head of `Tscombine.extraction_of_phasevelo`
(lines 165-168): obtain the reference point from `plot_vmatrix`; when it
is falsy, raise `pserrors.CannotMeasureDispersion("Bad data")`. -/
def extraction_seed_check (refpoint : ℚ × ℚ) : Except String (ℚ × ℚ) :=
  match plot_vmatrix_pick refpoint with
  | none => Except.error "CannotMeasureDispersion: Bad data"
  | some p => Except.ok p

/-- One iteration of the left while-loop of `extraction_of_phasevelo`
(lines 175-177): while `leftpoint` is truthy, run
`_leftpoint, _ = self.local_maximum_tracking(refpoint=leftpoint, ...)`.
The tracking result is bound to the fresh name `_leftpoint`, so the loop
variable `leftpoint` (second state component) is left unchanged by the
body; only `self.dispersion` (first component) is updated.  When the
guard is falsy the state is returned unchanged (loop exit is a fixed
point of the step). -/
def left_loop_step (sampling_rate : ℚ) (veloscale periods : List ℚ)
    (vmatrix : List (List ℚ)) (s : List ℚ × Option (ℚ × ℚ)) :
    Except String (List ℚ × Option (ℚ × ℚ)) :=
  match s.2 with
  | none => Except.ok s
  | some leftpoint => do
    let r ← local_maximum_tracking sampling_rate veloscale periods vmatrix
        s.1 leftpoint
    Except.ok (r.dispersion, s.2)

/-- Iterate the left while-loop `n` times, propagating a raised
exception. -/
def left_loop_iter (sampling_rate : ℚ) (veloscale periods : List ℚ)
    (vmatrix : List (List ℚ)) :
    ℕ → List ℚ × Option (ℚ × ℚ) → Except String (List ℚ × Option (ℚ × ℚ))
  | 0, s => Except.ok s
  | n + 1, s => do
    let s1 ← left_loop_step sampling_rate veloscale periods vmatrix s
    left_loop_iter sampling_rate veloscale periods vmatrix n s1

/-- Python positional-argument binding for a `def` whose parameters are
listed as (name, has-default): calling it with `nargs` positional and no
keyword arguments raises `TypeError` when arguments outnumber the
parameters or when a parameter without a default is left unbound. -/
def bind_positional (params : List (String × Bool)) (nargs : ℕ) :
    Except String Unit :=
  if params.length < nargs then
    Except.error "TypeError: too many positional arguments"
  else if (params.drop nargs).any (fun p => !p.2) then
    Except.error "TypeError: missing required positional argument"
  else
    Except.ok ()

/-- Parameter list of `intersta_t_v_construct` (lines 276-277):
`tr1, tr2, filttr1, filttr2, periods` have no default;
`rmaxv=7, rminv=2, deltav=0.01, shift_len=500` do. -/
def intersta_t_v_construct_params : List (String × Bool) :=
  [("tr1", false), ("tr2", false), ("filttr1", false), ("filttr2", false),
   ("periods", false),
   ("rmaxv", true), ("rminv", true), ("deltav", true), ("shift_len", true)]

/-- Number of positional arguments at the call site in
`Tscombine.measure_dispersion` line 149:
`intersta_t_v_construct(tr1, tr2, filttr1, filttr2)`. -/
def measure_dispersion_line149_nargs : ℕ := 4

/-- Initialization of the dispersion curve in
`Tscombine.measure_dispersion` line 119:
`self.dispersion = np.zeros(len(periods))`. -/
def dispersion_init (nperiods : ℕ) : List ℚ :=
  List.replicate nperiods 0

/-- Station identity fields used by `get_merged_traces` to build SAC
file names. -/
structure StaId where
  network : String
  name : String
  channel : String

/-- SAC file-name construction of `get_merged_traces` lines 81-84:
`".".join([timetag, "0000", network, name, "*", channel, "M", "SAC"])`. -/
def sac_filename (timetag : String) (sta : StaId) : String :=
  String.intercalate "." [timetag, "0000", sta.network, sta.name, "*",
                          sta.channel, "M", "SAC"]

/-- Embedding of `os.path.join(sacdir, subdir, filename)` on a POSIX system. -/
def path_join3 (sacdir subdir filename : String) : String :=
  sacdir ++ "/" ++ subdir ++ "/" ++ filename

/-- File paths read by `get_merged_traces` (lines 80-89): `filename1`
and `filename2` are both built, but both `obspy.read` calls (lines 86
and 89) receive a `filepath` joined from `filename1`; the first
component of the result is the path `st1` is read from, the second the
path `st2` is read from. -/
def get_merged_traces_paths (sacdir subdir timetag : String)
    (sta1 sta2 : StaId) : String × String :=
  let filename1 := sac_filename timetag sta1
  let _filename2 := sac_filename timetag sta2
  let filepath1 := path_join3 sacdir subdir filename1
  let filepath2 := path_join3 sacdir subdir filename1
  (filepath1, filepath2)

/-- Isolation-window weight of `movement_windows_construction`
(lines 345-368) at one sample time `t`, for arrival time `arr`, period
`T0` and half-width `n`.  The flat band `[arr - n*T0, arr + n*T0]` gets
weight 1 (line 356); the loop then writes the cosine taper on the open
transition bands `(Tjumpa, Tturna)` and `(Tturnb, Tjumpb)`
(lines 357-368), both disjoint from the flat band, and every other
sample keeps the `np.zeros` initialization.  `cosfn x` stands for
`np.cos(np.pi * x)`, abstracted so the definition stays executable; the
code passes `x = (|t - arr| - n*T0) / T0`. -/
def movement_window (cosfn : ℚ → ℚ) (arr T0 n t : ℚ) : ℚ :=
  let Tturna := arr - n * T0
  let Tturnb := arr + n * T0
  let Tjumpa := arr - n * T0 - T0 / 2
  let Tjumpb := arr + n * T0 + T0 / 2
  if t < Tturna ∧ Tjumpa < t then cosfn ((|t - arr| - n * T0) / T0)
  else if t < Tjumpb ∧ Tturnb < t then cosfn ((|t - arr| - n * T0) / T0)
  else if Tturna ≤ t ∧ t ≤ Tturnb then 1
  else 0

/-- Isolated trace sample (line 369):
`isotr[iperiod, :] = tr.data * w[iperiod, :]`, at one sample whose raw
value is `data t`. -/
def isolate_sample (cosfn : ℚ → ℚ) (data : ℚ → ℚ) (arr T0 n t : ℚ) : ℚ :=
  data t * movement_window cosfn arr T0 n t

/-! Concrete inputs used to evaluate the tracker.  `exVmatrix` has a
single period row whose correlation column has strict local maxima at
velocity indices 1, 3, 5 and 7 with amplitudes 5, 7, 3 and 4; the seed
sits at period 25 s (column 0) and velocity 14 km/s (index 4), with
sampling rate 1/10 Hz. -/

/-- Velocity scale of the concrete example: 10, 11, ..., 18 km/s
(uniform grid, indices 0..8). -/
def exVeloscale : List ℚ := [10, 11, 12, 13, 14, 15, 16, 17, 18]

/-- Period set of the concrete example: the single period 25 s. -/
def exPeriods : List ℚ := [25]

/-- Dispersion matrix of the concrete example: one period row of
correlation amplitudes over the nine velocity grid points. -/
def exVmatrix : List (List ℚ) := [[0, 5, 0, 7, 0, 3, 0, 4, 0]]

/-- Sampling rate of the concrete example, 1/10 Hz. -/
def exSamplingRate : ℚ := 1/10

/-- Seed point of the concrete example: period 25 s, velocity 14 km/s
(an operator pick at period index 0, velocity index 4). -/
def exSeed : ℚ × ℚ := (25, 14)

/-- Dispersion matrix with a single period row whose correlation column
rises monotonically left of the seed velocity index 0: every local
extremum lies strictly right of the seed, so `extremums_left` is empty
and `shift_length = 0`. -/
def exVmatrixNoLeft : List (List ℚ) := [[0, 1, 2, 3, 2, 3, 2]]

/-- Velocity scale matching the seven columns of `exVmatrixNoLeft`:
10, 11, ..., 16 km/s. -/
def exVeloscaleShort : List ℚ := [10, 11, 12, 13, 14, 15, 16]

/-- Evaluation of the shift-scan at the concrete seed: with sampling rate
1/10 Hz and period 25 s the acceptance condition
`shift / sampling_rate / T0 > 0.4` first holds at `shift = 2`, pairing
left extremum index 3 (amplitude 7) with right extremum index 5
(amplitude 3);  the scan breaks with `max 7 3 = 7`. -/
theorem phasevelo_loop_at_exSeed :
    phasevelo_loop [0, 5, 0, 7, 0, 3, 0, 4, 0] [1, 3, 1, 3] [5, 7, 5, 7]
      (1/10) 25 4 = some 7 := by
  simp only [phasevelo_loop, List.range_succ, List.range_zero, List.nil_append,
    List.cons_append, List.findSome?]
  norm_num

/-- Evaluation of one tracking call at the concrete seed, for an
arbitrary incoming dispersion array `d`: the tracker writes the
correlation amplitude 7 at period index 0 and proposes no left seed and
the right seed `(1, 4)`. -/
theorem tracking_at_exSeed (d : List ℚ) :
    local_maximum_tracking exSamplingRate exVeloscale exPeriods exVmatrix d exSeed
      = Except.ok ⟨d.set 0 7, none, some ((1 : ℚ), (4 : ℚ))⟩ := by
  simp only [local_maximum_tracking, get_point_index, np_argmax_eq,
    tracking_extremums, argrelextrema_greater, exVeloscale, exPeriods,
    exVmatrix, exSeed, exSamplingRate]
  norm_num [List.range_succ, List.filter_cons, List.filter_nil, List.filter_append]
  rw [phasevelo_loop_at_exSeed]

/-- Evaluation of one iteration of the left while-loop at the concrete
seed: the dispersion array is updated but the loop variable `leftpoint`
keeps its value `some exSeed` (the body binds the tracking result to
`_leftpoint`, not to `leftpoint`). -/
theorem left_loop_step_at_exSeed (d : List ℚ) :
    left_loop_step exSamplingRate exVeloscale exPeriods exVmatrix (d, some exSeed)
      = Except.ok (d.set 0 7, some exSeed) := by
  simp only [left_loop_step]
  rw [tracking_at_exSeed]
  rfl

/-- After any number of iterations of the left while-loop started at the
concrete seed, the loop variable is still `some exSeed`: the guard
`while (leftpoint)` stays truthy forever. -/
theorem left_loop_iter_stuck :
    ∀ (n : ℕ) (d : List ℚ), ∃ d2 : List ℚ,
      left_loop_iter exSamplingRate exVeloscale exPeriods exVmatrix n
        (d, some exSeed) = Except.ok (d2, some exSeed)
  | 0, d => ⟨d, rfl⟩
  | n + 1, d => by
    obtain ⟨d2, h⟩ := left_loop_iter_stuck n (d.set 0 7)
    refine ⟨d2, ?_⟩
    simp only [left_loop_iter]
    rw [left_loop_step_at_exSeed]
    exact h

/-- C1: at the concrete seed the tracker accepts the straddling pair at
velocity indices 3 and 5, whose correlation amplitudes are 7 and 3 and
whose `VelocityScale` coordinates are 13 and 15 km/s.  The value the
code records in the dispersion curve is 7 — `max(xcorr[left], xcorr[right])`,
the greater correlation AMPLITUDE — and not 13, the velocity coordinate
of the greater-amplitude extremum, refuting the claim that the recorded
value is the velocity: line 211 stores an amplitude in `phasevelo`. -/
theorem dispersion_records_amplitude_not_velocity :
    local_maximum_tracking exSamplingRate exVeloscale exPeriods exVmatrix
        (dispersion_init 1) exSeed
      = Except.ok ⟨[7], none, some ((1 : ℚ), (4 : ℚ))⟩ ∧
    (exVmatrix.getD 0 []).getD 3 0 = 7 ∧ (exVmatrix.getD 0 []).getD 5 0 = 3 ∧
    exVeloscale.getD 3 0 = 13 ∧ exVeloscale.getD 5 0 = 15 ∧
    (7 : ℚ) < 13 :=
  ⟨tracking_at_exSeed (dispersion_init 1), rfl, rfl, rfl, rfl, by norm_num⟩

/-- C2: on the correlation column `[3, 1, 4, 1, 5]` the genuine local
minima along the velocity axis are at indices 1 and 3, but the
candidate set examined by `local_maximum_tracking` is `[2, 2]` — the
single local maximum duplicated (lines 192-193 call `argrelextrema`
with `np.greater` for both the "maxima" and the "minima" set) — so the
examined set does not contain the local minima, refuting the claim that
both distinct extremum sets are examined. -/
theorem minima_set_duplicates_maxima :
    tracking_extremums [3, 1, 4, 1, 5] = [2, 2] ∧
    argrelextrema_less [3, 1, 4, 1, 5] = [1, 3] ∧
    (tracking_extremums [3, 1, 4, 1, 5]).contains 1 = false ∧
    (tracking_extremums [3, 1, 4, 1, 5]).contains 3 = false := by
  refine ⟨?_, ?_, rfl, rfl⟩ <;> rfl

/-- C3: both `obspy.read` calls of `get_merged_traces` receive the path
joined from `filename1`, the name built from station 1's network, name
and channel (lines 85-89); the path for the second trace equals the
path for the first, equals the station-1 path, and is unchanged under
any replacement of station 2's identity, so `tr1` and `tr2` are always
read from the same waveform file. -/
theorem traces_read_from_same_station1_path :
    ∀ (sacdir subdir timetag : String) (sta1 sta2 sta2x : StaId),
      (get_merged_traces_paths sacdir subdir timetag sta1 sta2).2
        = (get_merged_traces_paths sacdir subdir timetag sta1 sta2).1 ∧
      (get_merged_traces_paths sacdir subdir timetag sta1 sta2).1
        = path_join3 sacdir subdir (sac_filename timetag sta1) ∧
      get_merged_traces_paths sacdir subdir timetag sta1 sta2
        = get_merged_traces_paths sacdir subdir timetag sta1 sta2x :=
  fun _ _ _ _ _ _ => ⟨rfl, rfl, rfl⟩

/-- C4: the call at line 149,
`intersta_t_v_construct(tr1, tr2, filttr1, filttr2)`, supplies 4
positional arguments while the callee's fifth parameter `periods` has no
default, so Python argument binding raises `TypeError`: the velocity-
matrix builder is never invoked with the inputs its contract requires
and the call cannot produce a `VelocityScale` and `DispersionMatrix`,
refuting the claim that the error branch of that call is unreachable. -/
theorem intersta_call_missing_periods_arg :
    bind_positional intersta_t_v_construct_params measure_dispersion_line149_nargs
      = Except.error "TypeError: missing required positional argument" := rfl

/-- C5: started at the concrete seed, the left while-loop of
`extraction_of_phasevelo` (lines 175-177) never terminates: after every
number `n` of iterations the loop variable `leftpoint` still holds
`some exSeed`, because the body assigns the tracking result to the fresh
name `_leftpoint` and never updates `leftpoint`, so the guard
`while (leftpoint)` remains truthy forever, refuting the claim that the
bidirectional outward walk terminates. -/
theorem left_walk_never_terminates :
    ∀ n : ℕ, ∃ d : List ℚ,
      left_loop_iter exSamplingRate exVeloscale exPeriods exVmatrix n
        (dispersion_init 1, some exSeed) = Except.ok (d, some exSeed) :=
  fun n => left_loop_iter_stuck n (dispersion_init 1)

/-- C6: on a correlation column with no extremum at or left of the seed
velocity index (`extremums_left` empty, so `shift_length = 0`), the
shift scan never assigns `phasevelo` and line 216
(`self.dispersion[iperiod] = phasevelo`) raises `UnboundLocalError`:
`local_maximum_tracking` does not return normally leaving the period
unresolved, refuting the claim that such a miss is handled locally
without raising. -/
theorem no_straddling_pair_raises_unbound_local :
    local_maximum_tracking exSamplingRate exVeloscaleShort exPeriods
        exVmatrixNoLeft (dispersion_init 1) (25, 10)
      = Except.error "UnboundLocalError: phasevelo referenced before assignment" ∧
    (tracking_extremums (exVmatrixNoLeft.getD 0 [])).filter
        (fun e => decide (e ≤ 0)) = [] :=
  ⟨rfl, rfl⟩

/-- C7 counterexample: at the concrete seed `(10, 3)` (period 10 < 20)
the extraction does not abort gracefully with a miss signal: the pick is
`None` and `extraction_of_phasevelo` raises
`pserrors.CannotMeasureDispersion("Bad data")` (lines 166-168), refuting
the claim that no error is ever raised for a sub-threshold seed. -/
theorem seed_below20_raises :
    extraction_seed_check (10, 3)
      = Except.error "CannotMeasureDispersion: Bad data" := rfl

/-- C7 amended: for every seed point with period below 20, `plot_vmatrix`
rejects the pick (returns `None`) and the extraction aborts by raising
`CannotMeasureDispersion("Bad data")` rather than returning a curve. -/
theorem seed_below20_aborts_with_error (p : ℚ × ℚ) (h : p.1 < 20) :
    plot_vmatrix_pick p = none ∧
    extraction_seed_check p
      = Except.error "CannotMeasureDispersion: Bad data" := by
  have hp : plot_vmatrix_pick p = none := by
    simp [plot_vmatrix_pick, h]
  exact ⟨hp, by simp [extraction_seed_check, hp]⟩

/-- C7 witness: the amended behaviour at the concrete seed `(10, 3)`. -/
theorem seed_below20_aborts_with_error_witness :
    (10 : ℚ) < 20 ∧
    plot_vmatrix_pick (10, 3) = none ∧
    extraction_seed_check (10, 3)
      = Except.error "CannotMeasureDispersion: Bad data" :=
  ⟨by norm_num, (seed_below20_aborts_with_error (10, 3) (by norm_num)).1,
   (seed_below20_aborts_with_error (10, 3) (by norm_num)).2⟩

/-- C8 counterexample: `measure_dispersion` initializes the dispersion
curve as `np.zeros(len(periods))` (line 119); with three periods every
entry — resolved or not — is the plain number 0, so an unresolved period
is stored as the value 0 rather than as an absent value distinguishable
from a measurement, refuting the claim. -/
theorem dispersion_init_zero_filled :
    dispersion_init 3 = [(0 : ℚ), 0, 0] := rfl

/-- C8 amended: every entry of the zero-initialized dispersion curve
reads as the value 0 — periods the walk never resolved keep that 0, so
partial curves are zero-filled, not marked absent. -/
theorem unresolved_entries_are_zero (n i : ℕ) (h : i < n) :
    (dispersion_init n).getD i 1 = 0 := by
  simp [dispersion_init, List.getD_eq_getElem?_getD, List.getElem?_replicate, h]

/-- C8 witness: the amended behaviour at `n = 3`, `i = 1`. -/
theorem unresolved_entries_are_zero_witness :
    1 < 3 ∧ (dispersion_init 3).getD 1 1 = 0 :=
  ⟨by norm_num, unresolved_entries_are_zero 3 1 (by norm_num)⟩

/-- C9: at the concrete seed the current period index is 0, the last
index of the one-element `PeriodSet` (`exPeriods.length = 1`, last valid
index `exPeriods.length - 1 = 0 < 1`), yet the tracker proposes the
right seed `(1, 4)`: the guard at line 222 compares `iperiod` with
`len(periods)` instead of `len(periods) - 1`, so the proposed period
index 1 equals `len(periods)` and falls outside the valid range
`[0, len(periods) - 1]`, refuting the claim that proposed indices stay
within `PeriodSet` bounds. -/
theorem rightpoint_proposed_out_of_bounds :
    local_maximum_tracking exSamplingRate exVeloscale exPeriods exVmatrix
        (dispersion_init 1) exSeed
      = Except.ok ⟨[7], none, some ((1 : ℚ), (4 : ℚ))⟩ ∧
    exPeriods.length = 1 ∧ exPeriods.length - 1 < 1 :=
  ⟨tracking_at_exSeed (dispersion_init 1), rfl, by decide⟩

/-- C10: for every period `T0 > 0` and half-width `n ≥ 0`, the isolation
weight of `movement_windows_construction` is 0 at every sample time
outside `[arr - n*T0 - T0/2, arr + n*T0 + T0/2]`, so the isolated trace
is 0 there; and at the arrival time itself the weight is 1, so the
isolated trace equals the raw value unscaled — for every taper function
`cosfn` and every raw trace `data`. -/
theorem window_zero_outside_and_unit_at_arrival
    (cosfn data : ℚ → ℚ) (arr T0 n t : ℚ) (hT : 0 < T0) (hn : 0 ≤ n) :
    ((t < arr - n * T0 - T0 / 2 ∨ arr + n * T0 + T0 / 2 < t) →
      isolate_sample cosfn data arr T0 n t = 0) ∧
    isolate_sample cosfn data arr T0 n arr = data arr := by
  have hnT : 0 ≤ n * T0 := mul_nonneg hn hT.le
  constructor
  · intro ht
    simp only [isolate_sample, movement_window]
    rcases ht with h | h
    · rw [if_neg, if_neg, if_neg, mul_zero]
      · rintro ⟨h1, -⟩; linarith
      · rintro ⟨-, h2⟩; linarith
      · rintro ⟨-, h1⟩; linarith
    · rw [if_neg, if_neg, if_neg, mul_zero]
      · rintro ⟨-, h1⟩; linarith
      · rintro ⟨h1, -⟩; linarith
      · rintro ⟨h1, -⟩; linarith
  · simp only [isolate_sample, movement_window]
    rw [if_neg, if_neg, if_pos ⟨by linarith, by linarith⟩, mul_one]
    · rintro ⟨-, h1⟩; linarith
    · rintro ⟨h1, -⟩; linarith

/-- C10 witness: with the zero taper and the constant raw trace 5,
arrival 0, period 1 and half-width 3: the sample at time 10 (outside
`[-3.5, 3.5]`) is isolated to 0 and the sample at the arrival time 0
keeps the raw value 5. -/
theorem window_zero_outside_and_unit_at_arrival_witness :
    (0 : ℚ) < 1 ∧ (0 : ℚ) ≤ 3 ∧
    isolate_sample (fun _ => 0) (fun _ => 5) 0 1 3 10 = 0 ∧
    isolate_sample (fun _ => 0) (fun _ => 5) 0 1 3 0 = 5 :=
  ⟨by norm_num, by norm_num,
   (window_zero_outside_and_unit_at_arrival (fun _ => 0) (fun _ => 5) 0 1 3 10
      (by norm_num) (by norm_num)).1 (Or.inr (by norm_num)),
   (window_zero_outside_and_unit_at_arrival (fun _ => 0) (fun _ => 5) 0 1 3 0
      (by norm_num) (by norm_num)).2⟩

end Pstwostation
